import Mathlib

/-!
Verification of the annotation-merge core exercised by
`examples/metabolite_workflow.ipynb` of pyBiodatafuse.

The notebook (the only source file) builds an Identifier Table from four
PubChem Compound identifiers, resolves them with `id_mapper.bridgedb_xref`
into a Mapping Table with columns
(identifier, identifier.source, target, target.source), annotates the
mapped targets with `molmedb.get_compound_gene_inhibitor` (adding one
list-of-records column `MolMeDB_transporter_inhibited`), and combines
per-source outputs with `pyBiodatafuse.utils.combine_sources`.

The bodies of `combine_sources` and of the collaborators live outside the
supplied sources, so they are modelled here from the specification; the
concrete tables recorded in the notebook's output cells are embedded
verbatim as data.
-/

set_option autoImplicit false

namespace PyBiodatafuse

/-- A structured fact contributed by one external knowledge source about a
mapped target identifier: an opaque record of field-name/value pairs
(e.g. `uniprot_trembl_id`, `hgnc_symbol`, `source_doi`, `source_pmid`). -/
structure AnnotRecord where
  fields : List (String × String)
  deriving DecidableEq, Repr

/-- One row of the Mapping Table produced by the Identifier Mapper:
columns (identifier, identifier.source, target, target.source). -/
structure MappingRow where
  identifier : String
  identifierSource : String
  target : String
  targetSource : String
  deriving DecidableEq, Repr

/-- One row of an annotator's output table: the Mapping Table join-key
columns plus the source-named list-of-records cell. -/
structure AnnotRow where
  identifier : String
  identifierSource : String
  target : String
  targetSource : String
  records : List AnnotRecord
  deriving DecidableEq, Repr

/-- The join-key columns shared between the Mapping Table and every
annotator output, as shown in the notebook's table headers. -/
def joinKeyColumns : List String :=
  ["identifier", "identifier.source", "target", "target.source"]

/-- An annotator's output table: the name of its source (which is also the
name of its extra column), the table's column header, and its rows. -/
structure AnnotTable where
  source : String
  header : List String
  rows : List AnnotRow
  deriving DecidableEq, Repr

/-- Error taxonomy of the Result Merger, from the specification:
`emptyInput` when the Identifier Table has zero rows, `schemaError`
when a collaborator's output lacks the expected join-key columns. -/
inductive MergeError where
  | emptyInput
  | schemaError (source : String)
  deriving DecidableEq, Repr

/-- One row of the merged output: keyed by an original input identifier,
holding one list-of-records cell per contributing annotator source. -/
structure ResultRow where
  identifier : String
  cells : List (String × List AnnotRecord)
  deriving DecidableEq, Repr

/-- First-occurrence deduplication, with an accumulator of already-seen
elements.  Models the "distinct set of original input Identifiers" the
merge starts from. -/
def distinctAux {α : Type} [DecidableEq α] : List α → List α → List α
  | _, [] => []
  | seen, x :: xs =>
    if x ∈ seen then distinctAux seen xs else x :: distinctAux (x :: seen) xs

/-- The distinct elements of a list, keeping first occurrences in order. -/
def distinct {α : Type} [DecidableEq α] (l : List α) : List α :=
  distinctAux [] l

/-- Does an annotator output table expose every expected join-key column? -/
def schemaOk (t : AnnotTable) : Bool :=
  joinKeyColumns.all (fun c => t.header.contains c)

/-- The union of unique Annotation Records collected across all of one
annotator's rows for a given input identifier (all of its mapped targets),
as the specification's merge step 2 requires. -/
def collectRecords (t : AnnotTable) (id : String) : List AnnotRecord :=
  distinct (((t.rows.filter (fun ar => ar.identifier = id)).map
    (fun ar => ar.records)).flatten)

/-- The Result Row of one input identifier: one (source, records) cell per
annotator, in the order the annotators were supplied; an empty list when
the annotator has no row for this identifier. -/
def resultRowFor (annots : List AnnotTable) (id : String) : ResultRow :=
  { identifier := id
    cells := annots.map (fun t => (t.source, collectRecords t id)) }

/-- Modelled from the spec: `pyBiodatafuse.utils.combine_sources`, whose
body is not among the supplied sources.  Per specification §4.3 it fails
with `EmptyInputError` on an empty Identifier Table, fails with
`SchemaError` when an annotator output lacks the expected join-key
columns, and otherwise builds one Result Row per distinct original input
identifier by grouping each annotator's records by identifier. -/
def combine_sources (idTable : List String) (annots : List AnnotTable) :
    Except MergeError (List ResultRow) :=
  if idTable.isEmpty then
    .error .emptyInput
  else
    match annots.find? (fun t => !(schemaOk t)) with
    | some t => .error (.schemaError t.source)
    | none => .ok ((distinct idTable).map (resultRowFor annots))

/-- The base Identifier Table viewed as a merged table with no annotator
columns: one row per listed identifier, no cells. -/
def baseTable (idTable : List String) : List ResultRow :=
  idTable.map (fun id => { identifier := id, cells := [] })

/-- The join-key part of an annotator output row. -/
def keyOfAnnotRow (r : AnnotRow) : MappingRow :=
  { identifier := r.identifier
    identifierSource := r.identifierSource
    target := r.target
    targetSource := r.targetSource }

/-- Modelled from the spec and the notebook's recorded run:
`molmedb.get_compound_gene_inhibitor`, whose body is not among the
supplied sources.  Its recorded output keeps exactly one row per input
identifier — the row whose `target.source` is `InChIKey`, MolMeDB's
preferred namespace — and adds the single list-of-records column
`MolMeDB_transporter_inhibited`.  The lookup of records by target
InChIKey is the external MolMeDB query, abstracted as a function. -/
def get_compound_gene_inhibitor (lookup : String → List AnnotRecord)
    (bridgedb_df : List MappingRow) : AnnotTable :=
  { source := "MolMeDB_transporter_inhibited"
    header := joinKeyColumns ++ ["MolMeDB_transporter_inhibited"]
    rows := (bridgedb_df.filter (fun r => r.targetSource = "InChIKey")).map
      (fun r =>
        { identifier := r.identifier
          identifierSource := r.identifierSource
          target := r.target
          targetSource := r.targetSource
          records := lookup r.target }) }

/-- A sequence of independent merge invocations on explicit inputs; models
repeated calls of the merge to state its statelessness. -/
def runMerges (calls : List (List String × List AnnotTable)) :
    List (Except MergeError (List ResultRow)) :=
  calls.map (fun c => combine_sources c.1 c.2)

/-! ### Concrete data recorded in the notebook's output cells -/

/-- The notebook's input list of metabolites (`metabolites_of_interest`
split on newlines). -/
def metabolite_list : List String :=
  ["100208", "10040286", "10041551", "10025195"]

/-- The rows of `bridgdb_df` visible in the notebook (`bridgdb_df.head()`
shows its first five rows, all for identifier 100208). -/
def bridgdb_df_head : List MappingRow :=
  [{ identifier := "100208", identifierSource := "PubChem-compound",
     target := "90560", targetSource := "ChemSpider" },
   { identifier := "100208", identifierSource := "PubChem-compound",
     target := "100208", targetSource := "PubChem Compound" },
   { identifier := "100208", identifierSource := "PubChem-compound",
     target := "HMDB0244377", targetSource := "HMDB" },
   { identifier := "100208", identifierSource := "PubChem-compound",
     target := "OFDNQWIFNXBECV-UHFFFAOYSA-N", targetSource := "InChIKey" },
   { identifier := "100208", identifierSource := "PubChem-compound",
     target := "C11280", targetSource := "KEGG Compound" }]

/-- The records of the `MolMeDB_transporter_inhibited` cell for 100208,
printed in full by the notebook's last cell. -/
def records_100208 : List AnnotRecord :=
  [{ fields := [("uniprot_trembl_id", "P08183"), ("hgnc_symbol", "ABCB1"),
                ("source_doi", "doi:10.1074/jbc.271.6.3163"),
                ("source_pmid", "8621716")] }]

/-- The four rows of `transporter_inhibited_df` recorded in the notebook
(its `head()` shows all four).  The record cells of the last three rows
are truncated in the notebook's display; only the fields whose values are
visible are embedded. -/
def transporter_inhibited_df : List AnnotRow :=
  [{ identifier := "100208", identifierSource := "PubChem-compound",
     target := "OFDNQWIFNXBECV-UHFFFAOYSA-N", targetSource := "InChIKey",
     records := records_100208 },
   { identifier := "10025195", identifierSource := "PubChem-compound",
     target := "LEJRLSZVESQKJK-UHFFFAOYSA-N", targetSource := "InChIKey",
     records := [{ fields := [("uniprot_trembl_id", "Q01959")] }] },
   { identifier := "10040286", identifierSource := "PubChem-compound",
     target := "FYGREZKTJIXWIH-UHFFFAOYSA-N", targetSource := "InChIKey",
     records := [{ fields := [("uniprot_trembl_id", "Q01959")] }] },
   { identifier := "10041551", identifierSource := "PubChem-compound",
     target := "OVVBIIBBRZVPAL-UHFFFAOYSA-N", targetSource := "InChIKey",
     records := [{ fields := [("uniprot_trembl_id", "P23975")] }] }]

/-- `transporter_inhibited_df` as the annotator output table handed to the
merge, with the header shown by the notebook. -/
def transporter_inhibited_table : AnnotTable :=
  { source := "MolMeDB_transporter_inhibited"
    header := joinKeyColumns ++ ["MolMeDB_transporter_inhibited"]
    rows := transporter_inhibited_df }

/-- A truncation of the recorded annotator table to its 100208 row alone,
used to exercise the merge on identifiers with zero annotator rows. -/
def annot_table_only_100208 : AnnotTable :=
  { source := "MolMeDB_transporter_inhibited"
    header := joinKeyColumns ++ ["MolMeDB_transporter_inhibited"]
    rows := [{ identifier := "100208", identifierSource := "PubChem-compound",
               target := "OFDNQWIFNXBECV-UHFFFAOYSA-N", targetSource := "InChIKey",
               records := records_100208 }] }

/-! ### Helper lemmas -/

theorem mem_distinctAux {α : Type} [DecidableEq α] (l : List α) :
    ∀ (seen : List α) (y : α), y ∈ distinctAux seen l ↔ y ∈ l ∧ y ∉ seen := by
  induction l with
  | nil => intro seen y; simp [distinctAux]
  | cons x xs ih =>
    intro seen y
    simp only [distinctAux]
    by_cases hx : x ∈ seen
    · rw [if_pos hx, ih]
      constructor
      · rintro ⟨hy, hys⟩
        exact ⟨List.mem_cons_of_mem _ hy, hys⟩
      · rintro ⟨hy, hys⟩
        rcases List.mem_cons.mp hy with h | h
        · exact absurd (h ▸ hx) hys
        · exact ⟨h, hys⟩
    · rw [if_neg hx]
      simp only [List.mem_cons, ih]
      constructor
      · rintro (h | ⟨hy, hys⟩)
        · exact ⟨Or.inl h, h ▸ hx⟩
        · exact ⟨Or.inr hy, fun hc => hys (Or.inr hc)⟩
      · rintro ⟨hy | hy, hys⟩
        · exact Or.inl hy
        · by_cases hyx : y = x
          · exact Or.inl hyx
          · exact Or.inr ⟨hy, by simp [List.mem_cons, hyx, hys]⟩

theorem nodup_distinctAux {α : Type} [DecidableEq α] (l : List α) :
    ∀ seen : List α, (distinctAux seen l).Nodup := by
  induction l with
  | nil => intro seen; simp [distinctAux]
  | cons x xs ih =>
    intro seen
    simp only [distinctAux]
    by_cases hx : x ∈ seen
    · rw [if_pos hx]; exact ih seen
    · rw [if_neg hx]
      refine List.nodup_cons.mpr ⟨fun hmem => ?_, ih _⟩
      exact ((mem_distinctAux xs (x :: seen) x).mp hmem).2 (List.mem_cons_self x seen)

theorem mem_distinct {α : Type} [DecidableEq α] (l : List α) (y : α) :
    y ∈ distinct l ↔ y ∈ l := by
  simp [distinct, mem_distinctAux]

theorem nodup_distinct {α : Type} [DecidableEq α] (l : List α) :
    (distinct l).Nodup :=
  nodup_distinctAux l []

theorem distinctAux_eq_self {α : Type} [DecidableEq α] (l : List α) :
    ∀ seen : List α, l.Nodup → (∀ y ∈ l, y ∉ seen) → distinctAux seen l = l := by
  induction l with
  | nil => intro seen _ _; rfl
  | cons x xs ih =>
    intro seen hnd hdisj
    have hx : x ∉ seen := hdisj x (List.mem_cons_self _ _)
    simp only [distinctAux, if_neg hx]
    congr 1
    refine ih _ (List.nodup_cons.mp hnd).2 ?_
    intro y hy
    simp only [List.mem_cons, not_or]
    exact ⟨fun h => (List.nodup_cons.mp hnd).1 (h ▸ hy),
           hdisj y (List.mem_cons_of_mem _ hy)⟩

theorem distinct_eq_self_of_nodup {α : Type} [DecidableEq α] (l : List α)
    (h : l.Nodup) : distinct l = l :=
  distinctAux_eq_self l [] h (fun _ _ => List.not_mem_nil _)

theorem map_identifier_resultRowFor (annots : List AnnotTable) (l : List String) :
    (l.map (resultRowFor annots)).map ResultRow.identifier = l := by
  induction l with
  | nil => rfl
  | cons x xs ih => simp only [List.map_cons, ih]; rfl

theorem combine_sources_ok (idTable : List String) (annots : List AnnotTable)
    (hne : idTable ≠ []) (hok : ∀ t ∈ annots, schemaOk t = true) :
    combine_sources idTable annots =
      .ok ((distinct idTable).map (resultRowFor annots)) := by
  have hfind : annots.find? (fun t => !(schemaOk t)) = none := by
    rw [List.find?_eq_none]
    intro t ht
    simp [hok t ht]
  cases idTable with
  | nil => exact absurd rfl hne
  | cons x xs => simp [combine_sources, hfind]

theorem mem_collectRecords (t : AnnotTable) (id : String) (q : AnnotRecord) :
    q ∈ collectRecords t id ↔
      ∃ ar ∈ t.rows, ar.identifier = id ∧ q ∈ ar.records := by
  simp only [collectRecords, mem_distinct, List.mem_flatten, List.mem_map,
    List.mem_filter, decide_eq_true_eq]
  constructor
  · rintro ⟨l, ⟨ar, ⟨har, hid⟩, rfl⟩, hq⟩
    exact ⟨ar, har, hid, hq⟩
  · rintro ⟨ar, har, hid, hq⟩
    exact ⟨ar.records, ⟨ar, ⟨har, hid⟩, rfl⟩, hq⟩

theorem map_fst_cells (annots : List AnnotTable) (id : String) :
    (resultRowFor annots id).cells.map Prod.fst = annots.map AnnotTable.source := by
  simp only [resultRowFor, List.map_map]
  rfl

/-! ### Claim theorems -/

/-- C1: For every non-empty Identifier Table (with annotator outputs that
pass the schema check), the merged output contains exactly one Result Row
per distinct original input identifier: its row keys are exactly the
distinct input identifiers, without duplication or loss, and an identifier
with zero mappings or zero annotations still gets its row. -/
theorem C1_one_row_per_distinct_identifier (idTable : List String)
    (annots : List AnnotTable) (hne : idTable ≠ [])
    (hok : ∀ t ∈ annots, schemaOk t = true) :
    ∃ rows, combine_sources idTable annots = .ok rows ∧
      rows.length = (distinct idTable).length ∧
      (rows.map ResultRow.identifier).Nodup ∧
      ∀ y, y ∈ rows.map ResultRow.identifier ↔ y ∈ idTable := by
  refine ⟨_, combine_sources_ok idTable annots hne hok, ?_, ?_, ?_⟩
  · exact List.length_map _ _
  · rw [map_identifier_resultRowFor]
    exact nodup_distinct idTable
  · intro y
    rw [map_identifier_resultRowFor]
    exact mem_distinct idTable y

/-- Witness for C1 at the notebook's concrete input list and recorded
annotator output. -/
theorem C1_witness :
    ∃ rows,
      combine_sources metabolite_list [transporter_inhibited_table] = .ok rows ∧
      rows.length = (distinct metabolite_list).length ∧
      (rows.map ResultRow.identifier).Nodup ∧
      ∀ y, y ∈ rows.map ResultRow.identifier ↔ y ∈ metabolite_list :=
  C1_one_row_per_distinct_identifier metabolite_list [transporter_inhibited_table]
    (by simp [metabolite_list]) (by decide)

/-- C4: An empty Identifier Table makes the merge fail with
`EmptyInputError` (whatever the annotator inputs are, so no collaborator
output is ever consulted), and a non-empty Identifier Table never
produces `EmptyInputError`. -/
theorem C4_empty_input_error (idTable : List String) (annots : List AnnotTable) :
    (idTable = [] → combine_sources idTable annots = .error .emptyInput) ∧
    (idTable ≠ [] → combine_sources idTable annots ≠ .error .emptyInput) := by
  constructor
  · rintro rfl
    rfl
  · intro hne
    cases idTable with
    | nil => exact absurd rfl hne
    | cons x xs =>
      cases hfind : (annots.find? (fun t => !(schemaOk t))) with
      | none => simp [combine_sources, hfind]
      | some t => simp [combine_sources, hfind]

/-- Witness for C4 at concrete inputs: the empty table errors, a singleton
table does not. -/
theorem C4_witness :
    combine_sources [] [] = .error .emptyInput ∧
    combine_sources ["100208"] [] ≠ .error .emptyInput :=
  ⟨(C4_empty_input_error [] []).1 rfl,
   (C4_empty_input_error ["100208"] []).2 (by simp)⟩

/-- C8 counterexample: the claim quantifies over every Identifier Table,
but on a table with a repeated identifier the merge keeps one row per
distinct identifier, so the output is not identical to the base table. -/
theorem C8_counterexample :
    combine_sources ["100208", "100208"] [] ≠
      .ok (baseTable ["100208", "100208"]) := by
  have h1 : combine_sources ["100208", "100208"] [] =
      .ok [{ identifier := "100208", cells := [] }] := by rfl
  rw [h1]
  intro h
  have h2 := Except.ok.inj h
  simp [baseTable] at h2

/-- C8 (amended): for every non-empty Identifier Table, merging zero
annotators yields the base table restricted to its distinct identifiers,
with no extra columns; when the input identifiers are pairwise distinct
the output is identical to the base Identifier Table itself. -/
theorem C8_zero_annotators_identity (idTable : List String) (hne : idTable ≠ []) :
    combine_sources idTable [] = .ok (baseTable (distinct idTable)) ∧
    (idTable.Nodup → combine_sources idTable [] = .ok (baseTable idTable)) := by
  have h := combine_sources_ok idTable [] hne (by simp)
  constructor
  · exact h
  · intro hnd
    rw [distinct_eq_self_of_nodup idTable hnd] at h
    exact h

/-- Witness for C8 at the notebook's concrete (duplicate-free) input. -/
theorem C8_witness :
    combine_sources metabolite_list [] = .ok (baseTable (distinct metabolite_list)) ∧
    combine_sources metabolite_list [] = .ok (baseTable metabolite_list) := by
  have h := C8_zero_annotators_identity metabolite_list (by simp [metabolite_list])
  exact ⟨h.1, h.2 (by decide)⟩

/-- C9: the merge is deterministic and stateless over its explicit
inputs: in any sequence of merge invocations, calling the merge twice on
the same inputs yields two identical results, independent of the calls
that came before — no accumulation of records across calls. -/
theorem C9_stateless_merge (prev : List (List String × List AnnotTable))
    (c : List String × List AnnotTable) :
    runMerges (prev ++ [c, c]) =
      runMerges prev ++ [combine_sources c.1 c.2, combine_sources c.1 c.2] := by
  simp [runMerges]

/-- C3: For every input identifier, the merge groups each annotator's
rows by the input identifier and produces one list cell per annotator
source holding the union of the unique Annotation Records collected
across all of that identifier's mapped targets (a left-join of each
annotator's output onto the base set of original input identifiers). -/
theorem C3_grouped_union_of_records (idTable : List String)
    (annots : List AnnotTable) (hne : idTable ≠ [])
    (hok : ∀ t ∈ annots, schemaOk t = true) :
    ∃ rows, combine_sources idTable annots = .ok rows ∧
      ∀ r ∈ rows, ∀ t ∈ annots, ∃ cell,
        (t.source, cell) ∈ r.cells ∧ cell.Nodup ∧
        ∀ q, q ∈ cell ↔
          ∃ ar ∈ t.rows, ar.identifier = r.identifier ∧ q ∈ ar.records := by
  refine ⟨_, combine_sources_ok idTable annots hne hok, ?_⟩
  intro r hr t ht
  obtain ⟨id, hid, rfl⟩ := List.mem_map.mp hr
  refine ⟨collectRecords t id, ?_, nodup_distinct _, ?_⟩
  · exact List.mem_map_of_mem (fun t => (t.source, collectRecords t id)) ht
  · intro q
    exact mem_collectRecords t id q

/-- Witness for C3 at the notebook's concrete input list and recorded
annotator output. -/
theorem C3_witness :
    ∃ rows,
      combine_sources metabolite_list [transporter_inhibited_table] = .ok rows ∧
      ∀ r ∈ rows, ∀ t ∈ [transporter_inhibited_table], ∃ cell,
        (t.source, cell) ∈ r.cells ∧ cell.Nodup ∧
        ∀ q, q ∈ cell ↔
          ∃ ar ∈ t.rows, ar.identifier = r.identifier ∧ q ∈ ar.records :=
  C3_grouped_union_of_records metabolite_list [transporter_inhibited_table]
    (by simp [metabolite_list]) (by decide)

/-- C5: If some annotator output lacks an expected join-key column, the
merge fails with `SchemaError` (an `Except.error`, so no partial output
exists and the error is not coerced into empty results); when every
annotator output exposes the join-key columns, no `SchemaError` is
raised. -/
theorem C5_schema_error (idTable : List String) (annots : List AnnotTable) :
    (idTable ≠ [] → (∃ t ∈ annots, schemaOk t = false) →
      ∃ s, combine_sources idTable annots = .error (.schemaError s)) ∧
    ((∀ t ∈ annots, schemaOk t = true) →
      ∀ s, combine_sources idTable annots ≠ .error (.schemaError s)) := by
  constructor
  · intro hne hbad
    have hsome : (annots.find? (fun t => !(schemaOk t))).isSome := by
      rw [List.find?_isSome]
      obtain ⟨t, ht, hb⟩ := hbad
      exact ⟨t, ht, by simp [hb]⟩
    obtain ⟨u, hu⟩ := Option.isSome_iff_exists.mp hsome
    refine ⟨u.source, ?_⟩
    cases idTable with
    | nil => exact absurd rfl hne
    | cons x xs => simp [combine_sources, hu]
  · intro hok s
    cases idTable with
    | nil => simp [combine_sources]
    | cons x xs =>
      rw [combine_sources_ok (x :: xs) annots (by simp) hok]
      simp

/-- Witness for C5: a table whose header is empty triggers the schema
error; the notebook's recorded annotator table does not. -/
theorem C5_witness :
    (∃ s, combine_sources ["100208"] [{ source := "S", header := [], rows := [] }] =
        .error (.schemaError s)) ∧
    (∀ s, combine_sources ["100208"] [transporter_inhibited_table] ≠
        .error (.schemaError s)) := by
  constructor
  · exact (C5_schema_error ["100208"] [{ source := "S", header := [], rows := [] }]).1
      (by simp) ⟨_, List.mem_singleton.mpr rfl, by decide⟩
  · exact (C5_schema_error ["100208"] [transporter_inhibited_table]).2 (by decide)

/-- C6: an input identifier for which an annotator has no matching row
gets an empty-list cell for that annotator — never a missing value: every
Result Row carries exactly one cell per supplied annotator source — and
zero mapping or annotation results raise no error. -/
theorem C6_empty_list_not_missing (idTable : List String)
    (annots : List AnnotTable) (hne : idTable ≠ [])
    (hok : ∀ t ∈ annots, schemaOk t = true) :
    ∃ rows, combine_sources idTable annots = .ok rows ∧
      ∀ r ∈ rows, r.cells.map Prod.fst = annots.map AnnotTable.source ∧
        ∀ t ∈ annots, (∀ ar ∈ t.rows, ar.identifier ≠ r.identifier) →
          (t.source, ([] : List AnnotRecord)) ∈ r.cells := by
  refine ⟨_, combine_sources_ok idTable annots hne hok, ?_⟩
  intro r hr
  obtain ⟨id, hid, rfl⟩ := List.mem_map.mp hr
  refine ⟨map_fst_cells annots id, ?_⟩
  intro t ht hnone
  rw [show (resultRowFor annots id).identifier = id from rfl] at hnone
  have hfil : t.rows.filter (fun ar => ar.identifier = id) = [] := by
    rw [List.filter_eq_nil_iff]
    intro ar har
    simp [hnone ar har]
  have hcoll : collectRecords t id = [] := by
    simp [collectRecords, hfil, distinct, distinctAux]
  show (t.source, ([] : List AnnotRecord)) ∈
    annots.map (fun t => (t.source, collectRecords t id))
  exact List.mem_map.mpr ⟨t, ht, by simp [hcoll]⟩

/-- Witness for C6: the identifiers other than 100208 have no row in a
truncated annotator table holding only the 100208 row, so their cells are
the empty list. -/
theorem C6_witness :
    ∃ rows,
      combine_sources metabolite_list [annot_table_only_100208] = .ok rows ∧
      ∀ r ∈ rows,
        r.cells.map Prod.fst = [annot_table_only_100208].map AnnotTable.source ∧
        ∀ t ∈ [annot_table_only_100208],
          (∀ ar ∈ t.rows, ar.identifier ≠ r.identifier) →
            (t.source, ([] : List AnnotRecord)) ∈ r.cells :=
  C6_empty_list_not_missing metabolite_list [annot_table_only_100208]
    (by simp [metabolite_list]) (by decide)

/-- C2 counterexample: the annotator drops rows of its input Mapping
Table.  The mapping row (100208, PubChem-compound, 90560, ChemSpider) is
in the input `bridgdb_df`, yet neither the recorded output
`transporter_inhibited_df` nor the modelled annotator applied to the
visible input rows keeps any row with target 90560. -/
theorem C2_counterexample :
    ({ identifier := "100208", identifierSource := "PubChem-compound",
       target := "90560", targetSource := "ChemSpider" } : MappingRow)
        ∈ bridgdb_df_head ∧
    transporter_inhibited_df.all (fun r => !(r.target == "90560")) = true ∧
    (get_compound_gene_inhibitor (fun _ => []) bridgdb_df_head).rows.all
        (fun r => !(r.target == "90560")) = true := by
  refine ⟨?_, ?_, ?_⟩ <;> decide

/-- C2 (amended): the annotator's output table has exactly the join-key
columns of its input Mapping Table plus one additional column named after
the source, whose cell value is the list of Annotation Records found for
the row's target (possibly empty); but instead of keeping every input
row, it keeps exactly the input rows whose target.source is InChIKey —
the source's preferred namespace — dropping rows in other namespaces. -/
theorem C2_annotator_output_shape (lookup : String → List AnnotRecord)
    (bridgedb_df : List MappingRow) :
    (get_compound_gene_inhibitor lookup bridgedb_df).header =
        joinKeyColumns ++ ["MolMeDB_transporter_inhibited"] ∧
    (get_compound_gene_inhibitor lookup bridgedb_df).rows.map keyOfAnnotRow =
        bridgedb_df.filter (fun r => r.targetSource = "InChIKey") ∧
    ∀ r ∈ (get_compound_gene_inhibitor lookup bridgedb_df).rows,
      r.records = lookup r.target := by
  refine ⟨rfl, ?_, ?_⟩
  · show (((bridgedb_df.filter (fun r => r.targetSource = "InChIKey")).map _).map
        keyOfAnnotRow) = _
    rw [List.map_map]
    exact List.map_id _
  · intro r hr
    simp only [get_compound_gene_inhibitor, List.mem_map, List.mem_filter] at hr
    obtain ⟨m, _, rfl⟩ := hr
    rfl

/-- C7: on the notebook's concrete input list of four identifiers, with
the recorded annotator output, the merged table has exactly 4 rows, one
row per input identifier, one annotation column per used annotator, and
each annotation cell is a list (possibly empty). -/
theorem C7_concrete_scenario :
    ∃ rows,
      combine_sources metabolite_list [transporter_inhibited_table] = .ok rows ∧
      rows.length = 4 ∧
      rows.map ResultRow.identifier = metabolite_list ∧
      ∀ r ∈ rows, r.cells.map Prod.fst = ["MolMeDB_transporter_inhibited"] ∧
        r.cells.length = 1 := by
  refine ⟨_, rfl, ?_, ?_, ?_⟩ <;> decide

/-- C10: in the exercised workflow, the recorded output of
`get_compound_gene_inhibitor` has exactly one row per distinct input
identifier, every output row's target.source is InChIKey, and every
visible input mapping row in another target namespace (ChemSpider,
PubChem Compound self-mapping, HMDB, KEGG Compound) is absent from the
output. -/
theorem C10_output_is_inchikey_only :
    transporter_inhibited_df.length = 4 ∧
    (transporter_inhibited_df.map AnnotRow.identifier).Nodup ∧
    (transporter_inhibited_df.map AnnotRow.identifier).Perm metabolite_list ∧
    (∀ r ∈ transporter_inhibited_df, r.targetSource = "InChIKey") ∧
    (∀ m ∈ bridgdb_df_head, m.targetSource ≠ "InChIKey" →
      ∀ r ∈ transporter_inhibited_df,
        ¬(r.identifier = m.identifier ∧ r.target = m.target)) := by
  refine ⟨rfl, ?_, ?_, ?_, ?_⟩ <;> decide

end PyBiodatafuse
